import Mathlib

/-!
Verification of `bevy-mouse-tracking` (`src/mouse_pos.rs`, `src/mouse_motion.rs`)
against its natural-language specification.

The plugin's per-frame systems are embedded shallowly: Bevy's `Vec2`/`Vec3`
(`f32` vectors) are modelled as pairs/triples of rationals, ECS queries as
lists of per-entity records, change-detection filters (`Changed<T>`,
`Added<T>`, `RemovedComponents<T>`) as explicit booleans / change-set lists,
and panics as `Option.none` results.
-/

namespace MouseTracking

/-- Two-dimensional vector (Bevy `Vec2`), components as rationals. -/
structure Vec2 where
  x : ℚ
  y : ℚ
deriving DecidableEq, Repr

/-- Three-dimensional vector (Bevy `Vec3`), components as rationals. -/
structure Vec3 where
  x : ℚ
  y : ℚ
  z : ℚ
deriving DecidableEq, Repr

/-- Bevy `Vec2 + Vec2`: componentwise addition. -/
def Vec2.add (a b : Vec2) : Vec2 := ⟨a.x + b.x, a.y + b.y⟩

/-- Bevy `Vec3 + Vec3`: componentwise addition. -/
def Vec3.add (a b : Vec3) : Vec3 := ⟨a.x + b.x, a.y + b.y, a.z + b.z⟩

/-- Bevy `Vec2 * f32`: componentwise scaling by a scalar. -/
def Vec2.scale (v : Vec2) (s : ℚ) : Vec2 := ⟨v.x * s, v.y * s⟩

/-- Bevy `Vec3 * f32`: componentwise scaling by a scalar. -/
def Vec3.scale (v : Vec3) (s : ℚ) : Vec3 := ⟨v.x * s, v.y * s, v.z * s⟩

/-- Bevy `Vec2::extend`: append a z component. -/
def Vec2.extend (v : Vec2) (z : ℚ) : Vec3 := ⟨v.x, v.y, z⟩

/-- The zero 2D vector (`Vec2::ZERO`, also `Vec2::default()`). -/
def Vec2.zero : Vec2 := ⟨0, 0⟩

/-- The zero 3D vector (`Vec3::default()`). -/
def Vec3.zero : Vec3 := ⟨0, 0, 0⟩

/-- Bevy `GlobalTransform` (affine transform, glam `Affine3A`): a 3x3 linear
part stored as three column vectors, plus a translation. -/
structure GlobalTransform where
  x_axis : Vec3
  y_axis : Vec3
  z_axis : Vec3
  translation : Vec3
deriving DecidableEq, Repr

/-- Method `GlobalTransform::mul_vec3` (glam `Affine3A::transform_point3`):
apply the linear part column-wise, then add the translation. -/
def GlobalTransform.mul_vec3 (t : GlobalTransform) (v : Vec3) : Vec3 :=
  (((t.x_axis.scale v.x).add (t.y_axis.scale v.y)).add (t.z_axis.scale v.z)).add t.translation

/-- The identity transform (`GlobalTransform::IDENTITY`). -/
def GlobalTransform.identity : GlobalTransform :=
  ⟨⟨1, 0, 0⟩, ⟨0, 1, 0⟩, ⟨0, 0, 1⟩, ⟨0, 0, 0⟩⟩

/-- Bevy `OrthographicProjection`, restricted to the fields this crate
reads: the `left`/`bottom` area offsets and the zoom `scale`. -/
structure OrthographicProjection where
  left : ℚ
  bottom : ℚ
  scale : ℚ
deriving DecidableEq, Repr

/-- Function `compute_world_pos_ortho` from `src/mouse_pos.rs`: add the projection's
left/bottom offset to the screen position, multiply by the projection scale,
extend with z = 0, and apply the camera's global transform. -/
def compute_world_pos_ortho (screen_pos : Vec2) (transform : GlobalTransform)
    (proj : OrthographicProjection) : Vec3 :=
  let offset : Vec2 := ⟨proj.left, proj.bottom⟩
  transform.mul_vec3 (((screen_pos.add offset).scale proj.scale).extend 0)

/-- Bevy `RenderTarget`: a camera renders either to a window (identified
here by a numeric window id) or to an image (numeric image handle). -/
inductive RenderTarget where
  | window (id : Nat)
  | image (handle : Nat)
deriving DecidableEq, Repr

/-- Bevy `CursorMoved` event: the window the cursor moved on and the new
cursor coordinates. -/
structure CursorMoved where
  id : Nat
  position : Vec2
deriving DecidableEq, Repr

/-- One row of the `Query<(&Camera, &mut MousePos)>` used by `update_pos`:
the camera's render target and its `MousePos` component. -/
structure TrackedCam where
  target : RenderTarget
  pos : Vec2
deriving DecidableEq, Repr

/-- The inner loop of `update_pos` for one `CursorMoved` event: write the
event's position into every camera whose target is the event's window. -/
def applyCursorMoved (e : CursorMoved) (cams : List TrackedCam) : List TrackedCam :=
  cams.map fun c =>
    if c.target = RenderTarget.window e.id then { c with pos := e.position } else c

/-- System `update_pos` from `src/mouse_pos.rs`: process this frame's `CursorMoved`
events in arrival order; each event overwrites the `MousePos` of every
camera rendering to its window. -/
def update_pos (movement : List CursorMoved) (cams : List TrackedCam) : List TrackedCam :=
  movement.foldl (fun cs e => applyCursorMoved e cs) cams

/-- The position carried by the last event of `movement` (in arrival order)
whose window matches the render target `t`, if any. -/
def lastMatch (t : RenderTarget) : List CursorMoved → Option Vec2
  | [] => none
  | e :: es =>
    match lastMatch t es with
    | some p => some p
    | none => if t = RenderTarget.window e.id then some e.position else none

/-- One row of the queries used by `update_pos_ortho`: an entity with a
`MousePosWorld` and `MousePos` (the `tracking` query, whose `Changed<MousePos>`
filter is the `screenChanged` flag) together with its `GlobalTransform` and
`OrthographicProjection` (the `cameras` query; entities lacking them panic
and are outside this model). `transformChanged` records whether the entity's
`GlobalTransform` changed this frame; the system does not query it. -/
structure OrthoCam where
  worldPos : Vec3
  screenPos : Vec2
  screenChanged : Bool
  transformChanged : Bool
  transform : GlobalTransform
  proj : OrthographicProjection
deriving DecidableEq, Repr

/-- System `update_pos_ortho` from `src/mouse_pos.rs`: for every entity matched by
the `Changed<MousePos>`-filtered tracking query, recompute `MousePosWorld`
with `compute_world_pos_ortho`; all other entities are untouched. -/
def update_pos_ortho (tracking : List OrthoCam) : List OrthoCam :=
  tracking.map fun c =>
    if c.screenChanged then
      { c with worldPos := compute_world_pos_ortho c.screenPos c.transform c.proj }
    else c

/-- The removal step inside `update_main`: `Vec::position` followed by
`Vec::remove` deletes the first occurrence of the entity, if present.
Entities are modelled as numeric ids. -/
def removeOne : List Nat → Nat → List Nat
  | [], _ => []
  | y :: ys, x => if y = x then ys else y :: removeOne ys x

/-- System `update_main` from `src/mouse_pos.rs`: collect the previously known main
camera followed by the entities whose `MainCamera` marker was added this
frame, drop one occurrence for each marker removal this frame, then accept a
singleton as the main camera, set the store to `none` on an empty list, and
panic (modelled as `Option.none`) otherwise. Returns the new
`MainCameraStore` contents on success. -/
def update_main (current_main : Option Nat) (added_main removed_main : List Nat) :
    Option (Option Nat) :=
  let with_marker := removed_main.foldl removeOne (current_main.toList ++ added_main)
  match with_marker with
  | [main] => some (some main)
  | [] => some none
  | _ => none

/-- The components of the resolved main camera as seen by the two
`Changed`-filtered queries of `update_resources`: the current `MousePos`
and `MousePosWorld` values, and for each whether the filtered query matches
the entity this frame (component present and changed since the system last
ran). -/
structure CamState where
  screenVal : Vec2
  screenChanged : Bool
  worldVal : Vec3
  worldChanged : Bool
deriving DecidableEq, Repr

/-- The state touched by `update_resources`: the global `MousePos` and
`MousePosWorld` resources and the `Local<bool>` flag
`main_defined_last_frame`. -/
structure ResState where
  screen_res : Vec2
  world_res : Vec3
  main_defined_last_frame : Bool
deriving DecidableEq, Repr

/-- System `update_resources` from `src/mouse_pos.rs`: with no resolved main
camera, reset both global resources to their defaults exactly when the
`main_defined_last_frame` flag is still set, clearing it; with a main
camera, set the flag and copy each component value into its global resource
exactly when the corresponding `Changed`-filtered query matches. -/
def update_resources (main : Option CamState) (s : ResState) : ResState :=
  match main with
  | none =>
    if s.main_defined_last_frame then ⟨Vec2.zero, Vec3.zero, false⟩ else s
  | some c =>
    let s1 : ResState := { s with main_defined_last_frame := true }
    let s2 : ResState :=
      if c.screenChanged then { s1 with screen_res := c.screenVal } else s1
    if c.worldChanged then { s2 with world_res := c.worldVal } else s2

/-- Bevy `MouseMotion` event (`bevy::input::mouse::MouseMotion`, imported as
`BevyMouseMotion` in `src/mouse_motion.rs`): a raw device motion delta. -/
structure BevyMouseMotion where
  delta : Vec2
deriving DecidableEq, Repr

/-- The crate's `MouseMotion` resource: the accumulated delta for the frame. -/
structure MouseMotion where
  delta : Vec2
deriving DecidableEq, Repr

/-- System `update_mouse_motion` from `src/mouse_motion.rs`: overwrite the
`MouseMotion` resource with the sum of this frame's raw motion deltas,
starting from `Vec2::ZERO`. -/
def update_mouse_motion (events : List BevyMouseMotion) (res : MouseMotion) : MouseMotion :=
  { delta := events.foldl (fun acc e => acc.add e.delta) Vec2.zero }

/-- Bevy `Camera`, restricted to the field `add_mouse_tracking` reads: its
render target. -/
structure Camera where
  target : RenderTarget
deriving DecidableEq, Repr

/-- A Bevy `Window` as read by `add_mouse_tracking`: its current cursor
position, `none` when the cursor is outside the window. -/
structure Window where
  cursor_position : Option Vec2
deriving DecidableEq, Repr

/-- Method `add_mouse_tracking` from `src/mouse_pos.rs` (the `EntityMut` method run
by the `AddMouseTracking` command): panic (modelled as `none`) when the
entity has no `Camera`, when the camera renders to an image, or when the
windows registry cannot resolve the target window; otherwise return the
`MousePos` value to insert, the window's current cursor position defaulting
to zero. -/
def add_mouse_tracking (camera : Option Camera) (windows : Nat → Option Window) :
    Option Vec2 :=
  match camera with
  | none => none
  | some cam =>
    match cam.target with
    | RenderTarget.image _ => none
    | RenderTarget.window id =>
      match windows id with
      | none => none
      | some w => some (w.cursor_position.getD Vec2.zero)

/-- Modelled from the spec: `lib.rs` re-exports `ExcludeMouseTracking` from
`mouse_pos`, but the marker's definition and the per-frame housekeeping
system that attaches tracking components to cameras are missing from
`src/mouse_pos.rs`. Per the spec's Lifecycle section, the housekeeping step
each frame finds cameras lacking tracking components and adds them, seeded
with the camera's current true cursor position (and the derived world
position), except that a camera carrying `ExcludeMouseTracking` never
receives them. One camera row: its exclusion marker, current true cursor
position, transform and projection, and its optional tracking components. -/
structure HousekeepingCam where
  excluded : Bool
  cursor : Vec2
  transform : GlobalTransform
  proj : OrthographicProjection
  tracked : Option Vec2
  trackedWorld : Option Vec3
deriving DecidableEq, Repr

/-- Modelled from the spec: one frame of the automatic housekeeping step
(see `HousekeepingCam`). Cameras with the exclusion marker are skipped;
cameras already tracked are left alone; the rest receive screen tracking
seeded with the current cursor position and world tracking seeded via
`compute_world_pos_ortho`. -/
def housekeeping (cams : List HousekeepingCam) : List HousekeepingCam :=
  cams.map fun c =>
    if c.excluded then c
    else if c.tracked.isSome then c
    else { c with
      tracked := some c.cursor,
      trackedWorld := some (compute_world_pos_ortho c.cursor c.transform c.proj) }

end MouseTracking

namespace MouseTracking

theorem lastMatch_image (h : Nat) (movement : List CursorMoved) :
    lastMatch (RenderTarget.image h) movement = none := by
  induction movement with
  | nil => rfl
  | cons e es ih => simp [lastMatch, ih]

/-- Per-camera characterization of `update_pos`: each camera ends with the
last matching event's position, or keeps its previous one. -/
theorem update_pos_eq_map (movement : List CursorMoved) (cams : List TrackedCam) :
    update_pos movement cams =
      cams.map fun c =>
        match lastMatch c.target movement with
        | some p => { c with pos := p }
        | none => c := by
  induction movement generalizing cams with
  | nil => simp [update_pos, lastMatch]
  | cons e es ih =>
    have step : update_pos (e :: es) cams = update_pos es (applyCursorMoved e cams) := rfl
    rw [step, ih, applyCursorMoved, List.map_map]
    refine List.map_congr_left fun c _ => ?_
    by_cases ht : c.target = RenderTarget.window e.id
    · cases hm : lastMatch c.target es <;> rw [ht] at hm <;>
        simp [lastMatch, Function.comp, ht, hm]
    · cases hm : lastMatch c.target es <;>
        simp [lastMatch, Function.comp, ht, hm]

/-- C2: after `update_pos` processes a frame's cursor events, every camera
whose window matches some event holds the position of the last matching
event in arrival order (so cameras sharing a window hold the same value),
and every camera whose window matches no event keeps its previous
`MousePos`. -/
theorem update_pos_last_event_wins (movement : List CursorMoved) (cams : List TrackedCam) :
    (∀ (i : Nat) (c : TrackedCam), cams[i]? = some c →
      (update_pos movement cams)[i]? =
        some (match lastMatch c.target movement with
              | some p => { c with pos := p }
              | none => c)) ∧
    (∀ (i j : Nat) (c₁ c₂ : TrackedCam) (p : Vec2), cams[i]? = some c₁ → cams[j]? = some c₂ →
      c₁.target = c₂.target → lastMatch c₁.target movement = some p →
      (update_pos movement cams)[i]? = some { c₁ with pos := p } ∧
      (update_pos movement cams)[j]? = some { c₂ with pos := p }) := by
  have main : ∀ (i : Nat) (c : TrackedCam), cams[i]? = some c →
      (update_pos movement cams)[i]? =
        some (match lastMatch c.target movement with
              | some p => { c with pos := p }
              | none => c) := by
    intro i c h
    rw [update_pos_eq_map]
    simp [List.getElem?_map, h]
  refine ⟨main, fun i j c₁ c₂ p h₁ h₂ ht hp => ?_⟩
  have hp₂ : lastMatch c₂.target movement = some p := by rw [← ht]; exact hp
  have e₁ := main i c₁ h₁
  have e₂ := main j c₂ h₂
  rw [hp] at e₁
  rw [hp₂] at e₂
  exact ⟨e₁, e₂⟩

/-- Witness for C2: three events on two windows; both cameras on window 0
end at the last window-0 event (2,3), and the window-2 camera, matched by
no event, is unchanged. -/
theorem update_pos_last_event_wins_witness :
    (update_pos [⟨0, ⟨1, 1⟩⟩, ⟨1, ⟨9, 9⟩⟩, ⟨0, ⟨2, 3⟩⟩]
        [⟨RenderTarget.window 0, ⟨0, 0⟩⟩, ⟨RenderTarget.window 0, ⟨5, 5⟩⟩,
          ⟨RenderTarget.window 2, ⟨7, 7⟩⟩])[0]? =
      some ⟨RenderTarget.window 0, ⟨2, 3⟩⟩ ∧
    (update_pos [⟨0, ⟨1, 1⟩⟩, ⟨1, ⟨9, 9⟩⟩, ⟨0, ⟨2, 3⟩⟩]
        [⟨RenderTarget.window 0, ⟨0, 0⟩⟩, ⟨RenderTarget.window 0, ⟨5, 5⟩⟩,
          ⟨RenderTarget.window 2, ⟨7, 7⟩⟩])[1]? =
      some ⟨RenderTarget.window 0, ⟨2, 3⟩⟩ ∧
    (update_pos [⟨0, ⟨1, 1⟩⟩, ⟨1, ⟨9, 9⟩⟩, ⟨0, ⟨2, 3⟩⟩]
        [⟨RenderTarget.window 0, ⟨0, 0⟩⟩, ⟨RenderTarget.window 0, ⟨5, 5⟩⟩,
          ⟨RenderTarget.window 2, ⟨7, 7⟩⟩])[2]? =
      some ⟨RenderTarget.window 2, ⟨7, 7⟩⟩ :=
  ⟨((update_pos_last_event_wins [⟨0, ⟨1, 1⟩⟩, ⟨1, ⟨9, 9⟩⟩, ⟨0, ⟨2, 3⟩⟩]
      [⟨RenderTarget.window 0, ⟨0, 0⟩⟩, ⟨RenderTarget.window 0, ⟨5, 5⟩⟩,
        ⟨RenderTarget.window 2, ⟨7, 7⟩⟩]).2 0 1 ⟨RenderTarget.window 0, ⟨0, 0⟩⟩
      ⟨RenderTarget.window 0, ⟨5, 5⟩⟩ ⟨2, 3⟩ rfl rfl rfl (by decide)).1,
   ((update_pos_last_event_wins [⟨0, ⟨1, 1⟩⟩, ⟨1, ⟨9, 9⟩⟩, ⟨0, ⟨2, 3⟩⟩]
      [⟨RenderTarget.window 0, ⟨0, 0⟩⟩, ⟨RenderTarget.window 0, ⟨5, 5⟩⟩,
        ⟨RenderTarget.window 2, ⟨7, 7⟩⟩]).2 0 1 ⟨RenderTarget.window 0, ⟨0, 0⟩⟩
      ⟨RenderTarget.window 0, ⟨5, 5⟩⟩ ⟨2, 3⟩ rfl rfl rfl (by decide)).2,
   (update_pos_last_event_wins [⟨0, ⟨1, 1⟩⟩, ⟨1, ⟨9, 9⟩⟩, ⟨0, ⟨2, 3⟩⟩]
      [⟨RenderTarget.window 0, ⟨0, 0⟩⟩, ⟨RenderTarget.window 0, ⟨5, 5⟩⟩,
        ⟨RenderTarget.window 2, ⟨7, 7⟩⟩]).1 2 ⟨RenderTarget.window 2, ⟨7, 7⟩⟩ rfl⟩

/-- C1: the standalone world-position function maps screen position `sp` to
`transform.mul_vec3 ⟨(sp.x + left) * scale, (sp.y + bottom) * scale, 0⟩`,
i.e. offset first, then scale, then z = 0, then the global transform; with
offset (0,0), scale 1 and the identity transform, screen (100,50) maps to
world (100,50,0), and with offset (-400,-300), scale 2 and the identity
transform, screen (400,300) maps to world (0,0,0). -/
theorem compute_world_pos_ortho_spec :
    (∀ (sp : Vec2) (t : GlobalTransform) (p : OrthographicProjection),
      compute_world_pos_ortho sp t p =
        t.mul_vec3 ⟨(sp.x + p.left) * p.scale, (sp.y + p.bottom) * p.scale, 0⟩) ∧
    compute_world_pos_ortho ⟨100, 50⟩ GlobalTransform.identity ⟨0, 0, 1⟩ = ⟨100, 50, 0⟩ ∧
    compute_world_pos_ortho ⟨400, 300⟩ GlobalTransform.identity ⟨-400, -300, 2⟩ = ⟨0, 0, 0⟩ := by
  refine ⟨fun sp t p => rfl, ?_, ?_⟩ <;>
    simp [compute_world_pos_ortho, GlobalTransform.mul_vec3, GlobalTransform.identity,
      Vec2.add, Vec3.add, Vec2.scale, Vec3.scale, Vec2.extend]

/-- Counterexample to C3: a camera whose `GlobalTransform` changed this
frame but whose `MousePos` did not is skipped by `update_pos_ortho`
(its `Changed<MousePos>` filter ignores transform changes), so its
`MousePosWorld` (0,0,0) is left different from the recomputed value. -/
theorem update_pos_ortho_ignores_transform_change :
    update_pos_ortho
        [⟨⟨0, 0, 0⟩, ⟨1, 0⟩, false, true, GlobalTransform.identity, ⟨0, 0, 1⟩⟩] =
      [⟨⟨0, 0, 0⟩, ⟨1, 0⟩, false, true, GlobalTransform.identity, ⟨0, 0, 1⟩⟩] ∧
    compute_world_pos_ortho ⟨1, 0⟩ GlobalTransform.identity ⟨0, 0, 1⟩ ≠
      Vec3.mk 0 0 0 := by
  constructor
  · rfl
  · simp [compute_world_pos_ortho, GlobalTransform.mul_vec3, GlobalTransform.identity,
      Vec2.add, Vec3.add, Vec2.scale, Vec3.scale, Vec2.extend]

/-- C3 (amended): `update_pos_ortho` recomputes a tracked camera's
`MousePosWorld` with `compute_world_pos_ortho` exactly when its screen-space
position changed this frame; a camera whose screen position is unchanged is
left untouched even if its world transform changed. -/
theorem update_pos_ortho_screen_changed (tracking : List OrthoCam) (i : Nat)
    (c : OrthoCam) (h : tracking[i]? = some c) :
    (update_pos_ortho tracking)[i]? =
      some (if c.screenChanged then
              { c with worldPos := compute_world_pos_ortho c.screenPos c.transform c.proj }
            else c) := by
  simp [update_pos_ortho, List.getElem?_map, h]

/-- Witness for C3 (amended): a camera with changed screen position (1,2)
is recomputed; the result stores the value of `compute_world_pos_ortho`. -/
theorem update_pos_ortho_screen_changed_witness :
    (update_pos_ortho
        [⟨⟨9, 9, 9⟩, ⟨1, 2⟩, true, false, GlobalTransform.identity, ⟨0, 0, 1⟩⟩])[0]? =
      some ⟨compute_world_pos_ortho ⟨1, 2⟩ GlobalTransform.identity ⟨0, 0, 1⟩,
        ⟨1, 2⟩, true, false, GlobalTransform.identity, ⟨0, 0, 1⟩⟩ :=
  update_pos_ortho_screen_changed
    [⟨⟨9, 9, 9⟩, ⟨1, 2⟩, true, false, GlobalTransform.identity, ⟨0, 0, 1⟩⟩] 0
    ⟨⟨9, 9, 9⟩, ⟨1, 2⟩, true, false, GlobalTransform.identity, ⟨0, 0, 1⟩⟩ rfl

/-- C4: after applying this frame's added and removed `MainCamera` change
sets to the previously known main camera, `update_main` panics when more
than one entry remains, accepts a unique remaining entity as the main
camera, and clears the stored main camera when none remain. -/
theorem update_main_spec (current_main : Option Nat) (added_main removed_main : List Nat) :
    (1 < (removed_main.foldl removeOne (current_main.toList ++ added_main)).length →
      update_main current_main added_main removed_main = none) ∧
    (∀ m : Nat, removed_main.foldl removeOne (current_main.toList ++ added_main) = [m] →
      update_main current_main added_main removed_main = some (some m)) ∧
    (removed_main.foldl removeOne (current_main.toList ++ added_main) = [] →
      update_main current_main added_main removed_main = some none) := by
  unfold update_main
  rcases h : removed_main.foldl removeOne (current_main.toList ++ added_main) with
    _ | ⟨m, _ | ⟨m₂, rest⟩⟩ <;>
    refine ⟨?_, ?_, ?_⟩ <;> simp_all

/-- Witness for C4, realizing the spec's scenario as three independent
frames: markers on two entities at once (entity 0 already main, 1 added)
panic; adding 0 and 1 while removing 1 in one frame accepts 0; and removing
the sole main camera 0 clears the store. -/
theorem update_main_spec_witness :
    update_main (some 0) [1] [] = none ∧
    update_main none [0, 1] [1] = some (some 0) ∧
    update_main (some 0) [] [0] = some none :=
  ⟨(update_main_spec (some 0) [1] []).1 (by decide),
   (update_main_spec none [0, 1] [1]).2.1 0 (by decide),
   (update_main_spec (some 0) [] [0]).2.2 (by decide)⟩

/-- C5: on the frame where the resolved main camera goes from some camera
to none, `update_resources` resets both global resources to their zero
defaults and clears the transition flag; on any frame with no main camera
and the flag already clear, the state is returned untouched, so the reset
is edge-triggered and happens exactly once. -/
theorem update_resources_edge_triggered_reset :
    (∀ (c : CamState) (s : ResState),
      update_resources none (update_resources (some c) s) =
        ⟨Vec2.zero, Vec3.zero, false⟩) ∧
    (∀ s : ResState, s.main_defined_last_frame = false →
      update_resources none s = s) := by
  constructor
  · intro c s
    cases hc : c.screenChanged <;> cases hw : c.worldChanged <;>
      simp [update_resources, hc, hw]
  · intro s hs
    simp [update_resources, hs]

/-- Witness for C5: a frame with main camera 7's state followed by two
frames without one: the first resets the globals, the second leaves the
already-reset state untouched. -/
theorem update_resources_edge_triggered_reset_witness :
    update_resources none
        (update_resources (some ⟨⟨1, 2⟩, true, ⟨3, 4, 5⟩, true⟩) ⟨⟨9, 9⟩, ⟨9, 9, 9⟩, false⟩) =
      ⟨Vec2.zero, Vec3.zero, false⟩ ∧
    update_resources none ⟨Vec2.zero, Vec3.zero, false⟩ = ⟨Vec2.zero, Vec3.zero, false⟩ :=
  ⟨update_resources_edge_triggered_reset.1 ⟨⟨1, 2⟩, true, ⟨3, 4, 5⟩, true⟩
      ⟨⟨9, 9⟩, ⟨9, 9, 9⟩, false⟩,
   update_resources_edge_triggered_reset.2 ⟨Vec2.zero, Vec3.zero, false⟩ rfl⟩

/-- Counterexample to C6: a resolved main camera whose `MousePos` and
`MousePosWorld` did not change this frame is missed by the
`Changed`-filtered queries of `update_resources`, so the global resources
keep their previous values (0,0)/(0,0,0) instead of the camera's current
component values (5,5)/(1,2,3). -/
theorem update_resources_misses_unchanged_main :
    update_resources (some ⟨⟨5, 5⟩, false, ⟨1, 2, 3⟩, false⟩) ⟨⟨0, 0⟩, ⟨0, 0, 0⟩, true⟩ =
      ⟨⟨0, 0⟩, ⟨0, 0, 0⟩, true⟩ ∧
    Vec2.mk 0 0 ≠ Vec2.mk 5 5 ∧ Vec3.mk 0 0 0 ≠ Vec3.mk 1 2 3 := by
  refine ⟨rfl, by decide, by decide⟩

/-- C6 (amended): with a resolved main camera, `update_resources` copies the
camera's `MousePos` (resp. `MousePosWorld`) component value into the global
resource exactly when the `Changed`-filtered query matches it this frame;
an unmatched resource keeps its previous value, and the
`main_defined_last_frame` flag is set. -/
theorem update_resources_copies_changed (c : CamState) (s : ResState) :
    (update_resources (some c) s).screen_res =
      (if c.screenChanged then c.screenVal else s.screen_res) ∧
    (update_resources (some c) s).world_res =
      (if c.worldChanged then c.worldVal else s.world_res) ∧
    (update_resources (some c) s).main_defined_last_frame = true := by
  cases hc : c.screenChanged <;> cases hw : c.worldChanged <;>
    simp [update_resources, hc, hw]

/-- C7: `update_mouse_motion` overwrites the `MouseMotion` resource with the
componentwise sum of this frame's raw motion deltas; the deltas
[(1,2),(3,-1)] sum to (4,1), and an empty frame yields (0,0). -/
theorem update_mouse_motion_sums_deltas (events : List BevyMouseMotion) (res : MouseMotion) :
    (update_mouse_motion events res).delta.x =
      events.foldl (fun a e => a + e.delta.x) 0 ∧
    (update_mouse_motion events res).delta.y =
      events.foldl (fun a e => a + e.delta.y) 0 ∧
    update_mouse_motion [⟨⟨1, 2⟩⟩, ⟨⟨3, -1⟩⟩] res = ⟨⟨4, 1⟩⟩ ∧
    update_mouse_motion [] res = ⟨⟨0, 0⟩⟩ := by
  have aux : ∀ (l : List BevyMouseMotion) (a : Vec2),
      (l.foldl (fun acc e => acc.add e.delta) a).x =
        l.foldl (fun q e => q + e.delta.x) a.x ∧
      (l.foldl (fun acc e => acc.add e.delta) a).y =
        l.foldl (fun q e => q + e.delta.y) a.y := by
    intro l
    induction l with
    | nil => intro a; exact ⟨rfl, rfl⟩
    | cons e es ih => intro a; simpa [Vec2.add] using ih (a.add e.delta)
  refine ⟨(aux events Vec2.zero).1, (aux events Vec2.zero).2, ?_, rfl⟩
  show MouseMotion.mk ((Vec2.zero.add ⟨1, 2⟩).add ⟨3, -1⟩) = ⟨⟨4, 1⟩⟩
  norm_num [Vec2.add, Vec2.zero]

/-- C8: `add_mouse_tracking` panics on an entity with no `Camera`, on a
camera rendering to an image, and on a camera whose target window cannot be
resolved; on a resolvable window with a cursor position it immediately
yields a `MousePos` equal to that cursor position. -/
theorem add_mouse_tracking_spec (windows : Nat → Option Window) :
    add_mouse_tracking none windows = none ∧
    (∀ h : Nat, add_mouse_tracking (some ⟨RenderTarget.image h⟩) windows = none) ∧
    (∀ wid : Nat, windows wid = none →
      add_mouse_tracking (some ⟨RenderTarget.window wid⟩) windows = none) ∧
    (∀ (wid : Nat) (w : Window) (p : Vec2), windows wid = some w →
      w.cursor_position = some p →
      add_mouse_tracking (some ⟨RenderTarget.window wid⟩) windows = some p) := by
  refine ⟨rfl, fun h => rfl, fun wid hw => ?_, fun wid w p hw hc => ?_⟩
  · simp [add_mouse_tracking, hw]
  · simp [add_mouse_tracking, hw, hc]

/-- Witness for C8: a registry holding only window 0 with cursor at (50,50):
no camera, an image camera, and an unknown window 1 all panic, while the
window-0 camera is seeded with (50,50). -/
theorem add_mouse_tracking_spec_witness :
    add_mouse_tracking none
        (fun i => if i = 0 then some ⟨some ⟨50, 50⟩⟩ else none) = none ∧
    add_mouse_tracking (some ⟨RenderTarget.image 3⟩)
        (fun i => if i = 0 then some ⟨some ⟨50, 50⟩⟩ else none) = none ∧
    add_mouse_tracking (some ⟨RenderTarget.window 1⟩)
        (fun i => if i = 0 then some ⟨some ⟨50, 50⟩⟩ else none) = none ∧
    add_mouse_tracking (some ⟨RenderTarget.window 0⟩)
        (fun i => if i = 0 then some ⟨some ⟨50, 50⟩⟩ else none) = some ⟨50, 50⟩ :=
  ⟨(add_mouse_tracking_spec (fun i => if i = 0 then some ⟨some ⟨50, 50⟩⟩ else none)).1,
   (add_mouse_tracking_spec (fun i => if i = 0 then some ⟨some ⟨50, 50⟩⟩ else none)).2.1 3,
   (add_mouse_tracking_spec (fun i => if i = 0 then some ⟨some ⟨50, 50⟩⟩ else none)).2.2.1 1 rfl,
   (add_mouse_tracking_spec (fun i => if i = 0 then some ⟨some ⟨50, 50⟩⟩ else none)).2.2.2 0
     ⟨some ⟨50, 50⟩⟩ ⟨50, 50⟩ rfl rfl⟩

/-- C10: `add_mouse_tracking` on a camera whose window resolves but reports
no cursor position does not panic; it yields a `MousePos` seeded with the
zero vector (`unwrap_or_default`). -/
theorem add_mouse_tracking_no_cursor_defaults_zero (windows : Nat → Option Window)
    (wid : Nat) (w : Window) (h1 : windows wid = some w)
    (h2 : w.cursor_position = none) :
    add_mouse_tracking (some ⟨RenderTarget.window wid⟩) windows = some Vec2.zero := by
  simp [add_mouse_tracking, h1, h2]

/-- Witness for C10: window 0 exists with the cursor outside it; tracking is
seeded with the zero vector. -/
theorem add_mouse_tracking_no_cursor_defaults_zero_witness :
    add_mouse_tracking (some ⟨RenderTarget.window 0⟩) (fun _ => some ⟨none⟩) =
      some Vec2.zero :=
  add_mouse_tracking_no_cursor_defaults_zero (fun _ => some ⟨none⟩) 0 ⟨none⟩ rfl rfl

theorem housekeeping_excluded_fixed (cams : List HousekeepingCam) (i : Nat)
    (c : HousekeepingCam) (h : cams[i]? = some c) (hex : c.excluded = true) :
    (housekeeping cams)[i]? = some c := by
  simp [housekeeping, List.getElem?_map, h, hex]

/-- C9 (modelled from the spec, see `housekeeping`): across any number of
frames of the housekeeping step, a camera carrying the exclusion marker
never receives screen or world tracking components (it is unchanged), while
in one frame a non-excluded camera lacking tracking components receives
them, seeded with its current cursor position and the derived world
position. -/
theorem housekeeping_excludes_and_seeds (n : Nat) (cams : List HousekeepingCam)
    (i : Nat) (c : HousekeepingCam) (h : cams[i]? = some c) :
    (c.excluded = true → (housekeeping^[n] cams)[i]? = some c) ∧
    (c.excluded = false → c.tracked = none →
      (housekeeping cams)[i]? =
        some { c with
          tracked := some c.cursor,
          trackedWorld := some (compute_world_pos_ortho c.cursor c.transform c.proj) }) := by
  constructor
  · intro hex
    induction n generalizing cams with
    | zero => simpa using h
    | succ k ih =>
      rw [Function.iterate_succ_apply]
      exact ih _ (housekeeping_excluded_fixed cams i c h hex)
  · intro hex htr
    simp [housekeeping, List.getElem?_map, h, hex, htr]

/-- Witness for C9: over two frames, the excluded untracked camera stays
untracked while the non-excluded one is seeded in a single frame. -/
theorem housekeeping_excludes_and_seeds_witness :
    (housekeeping^[2]
        [⟨true, ⟨3, 4⟩, GlobalTransform.identity, ⟨0, 0, 1⟩, none, none⟩,
          ⟨false, ⟨3, 4⟩, GlobalTransform.identity, ⟨0, 0, 1⟩, none, none⟩])[0]? =
      some ⟨true, ⟨3, 4⟩, GlobalTransform.identity, ⟨0, 0, 1⟩, none, none⟩ ∧
    (housekeeping
        [⟨true, ⟨3, 4⟩, GlobalTransform.identity, ⟨0, 0, 1⟩, none, none⟩,
          ⟨false, ⟨3, 4⟩, GlobalTransform.identity, ⟨0, 0, 1⟩, none, none⟩])[1]? =
      some ⟨false, ⟨3, 4⟩, GlobalTransform.identity, ⟨0, 0, 1⟩, some ⟨3, 4⟩,
        some (compute_world_pos_ortho ⟨3, 4⟩ GlobalTransform.identity ⟨0, 0, 1⟩)⟩ :=
  ⟨(housekeeping_excludes_and_seeds 2
      [⟨true, ⟨3, 4⟩, GlobalTransform.identity, ⟨0, 0, 1⟩, none, none⟩,
        ⟨false, ⟨3, 4⟩, GlobalTransform.identity, ⟨0, 0, 1⟩, none, none⟩] 0
      ⟨true, ⟨3, 4⟩, GlobalTransform.identity, ⟨0, 0, 1⟩, none, none⟩ rfl).1 rfl,
   (housekeeping_excludes_and_seeds 2
      [⟨true, ⟨3, 4⟩, GlobalTransform.identity, ⟨0, 0, 1⟩, none, none⟩,
        ⟨false, ⟨3, 4⟩, GlobalTransform.identity, ⟨0, 0, 1⟩, none, none⟩] 1
      ⟨false, ⟨3, 4⟩, GlobalTransform.identity, ⟨0, 0, 1⟩, none, none⟩ rfl).2 rfl rfl⟩

end MouseTracking
